import Mathlib

/-!
Verification of the paggo TypeScript client (`src/lib/client.ts`).

The client talks to a key-value server over one TCP socket using a
fixed-layout binary protocol.  We give a shallow embedding of the wire
codec (key serialization, value encoding, frame construction) and of the
synchronous phase of each session operation (validate, build frame,
`socket.write`, register a `once('data')` handler), and prove or refute
the specified properties about them.

Modelling conventions:
* JS strings are modelled as Lean `String`; `.length` is the character
  count (which agrees with the JS UTF-16 code-unit length on the basic
  multilingual plane) and `charCodeAt i` is the code point of character
  `i`.
* A `Uint8Array` is a `List Nat` of values `< 256`; `new Uint8Array(n)`
  zero-fills, an indexed store truncates mod 256 and silently ignores an
  out-of-bounds index, and `TypedArray.prototype.set(src, offset)` throws
  a `RangeError` when `offset + src.length` exceeds the target length.
* Thrown JS values become `Except.error`; the thrown message strings are
  abbreviated (their exact text is irrelevant to the properties).
-/

namespace Paggo

/-- Connection configuration after constructor defaulting
(`client.ts` lines 6-33): all four fields resolved. -/
structure ConnectionOptions where
  host : String
  port : Nat
  maxKeySizeBytes : Nat
  maxValueSizeBytes : Nat
  deriving DecidableEq, Repr

/-- Modelled from the spec: the `Commands` enumeration is imported from
`src/commands`, which is not among the reviewed sources.  The spec fixes
only that each of PING, GET, SET, EXISTS, DELETE maps to one reserved
byte value shared with the server, so we keep the five codes abstract as
fields of a structure and quantify over them. -/
structure Commands where
  PING : Nat
  GET : Nat
  SET : Nat
  EXISTS : Nat
  DELETE : Nat
  deriving DecidableEq, Repr

/-- The `SerializableValue` union from `src/lib/data/serial` as used by
`client.ts`: `typeof` dispatch distinguishes boolean, number and string.
JS numbers are doubles; the behaviour under scrutiny only involves
integral values, modelled as `Int`. -/
inductive SerializableValue where
  | bool : Bool → SerializableValue
  | num : Int → SerializableValue
  | str : String → SerializableValue
  deriving DecidableEq, Repr

/-- `Number.prototype.toString()` for an integral JS number: decimal
notation with a leading minus sign, which is exactly Lean's `toString`
on `Int`. -/
def jsNumberToString (n : Int) : String :=
  toString n

/-- `Client.validateKey` (`client.ts` lines 35-40): throws when
`key.length > this.options.maxKeySizeBytes`. -/
def validateKey (opts : ConnectionOptions) (key : String) : Except String Unit :=
  if key.length > opts.maxKeySizeBytes then
    .error "key too long"
  else
    .ok ()

/-- `Client.validateValue` (`client.ts` lines 42-55): booleans return
early with no check; numbers are first converted with `toString()`; the
surviving string is checked with `value.length > maxValueSizeBytes`.
Note the check is on the JS string length (character count), not on the
UTF-8 byte length of the later encoding. -/
def validateValue (opts : ConnectionOptions) (value : SerializableValue) : Except String Unit :=
  match value with
  | .bool _ => .ok ()
  | .num n =>
      if (jsNumberToString n).length > opts.maxValueSizeBytes then
        .error "value too long"
      else
        .ok ()
  | .str s =>
      if s.length > opts.maxValueSizeBytes then
        .error "value too long"
      else
        .ok ()

/-- One key character to one byte: `buf[i] = key.charCodeAt(i)` stores
into a `Uint8Array`, truncating the code point mod 256. -/
def charCodeByte (c : Char) : Nat :=
  c.toNat % 256

/-- The byte buffer produced by the loop in `Client.serializeKey`
(`client.ts` lines 60-64): one byte per character. -/
def serializeKeyBytes (key : String) : List Nat :=
  key.data.map charCodeByte

/-- `Client.serializeKey` (`client.ts` lines 57-67): validates the key,
then builds the one-byte-per-character buffer of length `key.length`. -/
def serializeKey (opts : ConnectionOptions) (key : String) : Except String (List Nat) := do
  validateKey opts key
  return serializeKeyBytes key

/-- UTF-8 encoding of one unicode scalar value, as produced by JS
`TextEncoder`. -/
def utf8EncodeChar (c : Char) : List Nat :=
  let n := c.toNat
  if n < 128 then [n]
  else if n < 2048 then [192 + n / 64, 128 + n % 64]
  else if n < 65536 then [224 + n / 4096, 128 + n / 64 % 64, 128 + n % 64]
  else [240 + n / 262144, 128 + n / 4096 % 64, 128 + n / 64 % 64, 128 + n % 64]

/-- `TextEncoder.prototype.encode`: the UTF-8 bytes of the string
(`this.encoder.encode(value)` at `client.ts` line 123). -/
def textEncoderEncode (s : String) : List Nat :=
  (s.data.map utf8EncodeChar).flatten

/-- Modelled from the spec: `encodeNumberToUint8Array` is imported from
`src/lib/data/encoding`, which is not among the reviewed sources.  The
spec fixes only that numbers use an opaque fixed-width numeric encoding;
we model it as the 8-byte big-endian two's-complement image of the
integer.  Only its length and opacity matter to the claims. -/
def encodeNumberToUint8Array (n : Int) : List Nat :=
  let m := (n % (2 ^ 64 : Int)).toNat
  [m / 2 ^ 56 % 256, m / 2 ^ 48 % 256, m / 2 ^ 40 % 256, m / 2 ^ 32 % 256,
   m / 2 ^ 24 % 256, m / 2 ^ 16 % 256, m / 2 ^ 8 % 256, m % 256]

/-- The value-encoding dispatch inside `Client.set` (`client.ts` lines
122-128): string → UTF-8 bytes, number → fixed-width numeric encoding,
boolean → one byte 1 or 0. -/
def encodeValue (value : SerializableValue) : List Nat :=
  match value with
  | .str s => textEncoderEncode s
  | .num n => encodeNumberToUint8Array n
  | .bool b => [if b then 1 else 0]

/-- `new Uint8Array(n)`: `n` zero bytes. -/
def uint8ArrayNew (n : Nat) : List Nat :=
  List.replicate n 0

/-- `arr[i] = b` on a `Uint8Array`: truncate to a byte and store;
an out-of-bounds index is silently ignored (as `List.set` does). -/
def uint8ArrayStore (dst : List Nat) (i : Nat) (b : Nat) : List Nat :=
  dst.set i (b % 256)

/-- `TypedArray.prototype.set(src, offset)`: throws `RangeError` when the
source does not fit, otherwise overwrites `src.length` bytes starting at
`offset`. -/
def uint8ArraySetAt (dst src : List Nat) (offset : Nat) : Except String (List Nat) :=
  if dst.length < offset + src.length then
    .error "RangeError"
  else
    .ok (dst.take offset ++ src ++ dst.drop (offset + src.length))

/-- The frame written by `Client.ping` (`client.ts` line 91):
`new Uint8Array([Commands.PING])`. -/
def pingFrame (cmds : Commands) : List Nat :=
  [cmds.PING % 256]

/-- The frame construction of `Client.get` (`client.ts` lines 100-109):
validate the key, allocate `1 + maxKeySizeBytes` zero bytes, store the
GET code at index 0, place the serialized key at offset 1. -/
def getFrame (cmds : Commands) (opts : ConnectionOptions) (key : String) :
    Except String (List Nat) := do
  validateKey opts key
  let data := uint8ArrayNew (1 + opts.maxKeySizeBytes)
  let data := uint8ArrayStore data 0 cmds.GET
  let keyBytes ← serializeKey opts key
  uint8ArraySetAt data keyBytes 1

/-- The frame construction of `Client.set` (`client.ts` lines 118-137):
validate key, validate value, encode the value by type, allocate
`1 + maxKeySizeBytes + value.byteLength` zero bytes, store the SET code
at index 0, place the serialized key at offset 1, then place the encoded
value at the HARDCODED offset 33 (`data.set(value, 33)` at line 135) —
not at `1 + maxKeySizeBytes`. -/
def setFrame (cmds : Commands) (opts : ConnectionOptions) (key : String)
    (value : SerializableValue) : Except String (List Nat) := do
  validateKey opts key
  validateValue opts value
  let valueBytes := encodeValue value
  let data := uint8ArrayNew (1 + opts.maxKeySizeBytes + valueBytes.length)
  let data := uint8ArrayStore data 0 cmds.SET
  let keyBytes ← serializeKey opts key
  let data ← uint8ArraySetAt data keyBytes 1
  uint8ArraySetAt data valueBytes 33

/-- The frame construction of `Client.exists` (`client.ts` lines
146-155): same shape as `get` with the EXISTS code. -/
def existsFrame (cmds : Commands) (opts : ConnectionOptions) (key : String) :
    Except String (List Nat) := do
  validateKey opts key
  let data := uint8ArrayNew (1 + opts.maxKeySizeBytes)
  let data := uint8ArrayStore data 0 cmds.EXISTS
  let keyBytes ← serializeKey opts key
  uint8ArraySetAt data keyBytes 1

/-- The frame construction of `Client.delete` (`client.ts` lines
164-173): same shape as `get` with the DELETE code. -/
def deleteFrame (cmds : Commands) (opts : ConnectionOptions) (key : String) :
    Except String (List Nat) := do
  validateKey opts key
  let data := uint8ArrayNew (1 + opts.maxKeySizeBytes)
  let data := uint8ArrayStore data 0 cmds.DELETE
  let keyBytes ← serializeKey opts key
  uint8ArraySetAt data keyBytes 1

/-- `res[0] === 1`, the status decoding shared by `set`, `exists` and
`delete` (`client.ts` lines 143, 161, 179).  On an empty response
`res[0]` is `undefined` and the strict comparison is `false`; no branch
can throw. -/
def decodeStatusResponse (res : List Nat) : Bool :=
  match res.head? with
  | some b => b == 1
  | none => false

/-- The `net.Socket` lifecycle relevant to the client: fresh, connected
(after `connect()` succeeded), destroyed (after `close()` calls
`socket.destroy()`). -/
inductive SocketLifecycle where
  | fresh : SocketLifecycle
  | connected : SocketLifecycle
  | destroyed : SocketLifecycle
  deriving DecidableEq, Repr

/-- Observable client/socket state: the lifecycle of the one socket, the
sequence of `socket.write` calls issued (one entry per call, each a whole
frame), and the number of registered `once('data')` handlers whose
response is still outstanding. -/
structure ClientState where
  lifecycle : SocketLifecycle
  writes : List (List Nat)
  pending : Nat
  deriving DecidableEq, Repr

/-- `this.socket.write(frame)`: the call is issued unconditionally; the
client code never consults the socket state first. -/
def socketWrite (st : ClientState) (frame : List Nat) : ClientState :=
  { st with writes := st.writes ++ [frame] }

/-- `this.socket.once('data', resolve)`: registers one handler; the
operation's promise is outstanding until the next data event. -/
def awaitOnceData (st : ClientState) : ClientState :=
  { st with pending := st.pending + 1 }

/-- `Client.close` (`client.ts` lines 84-88): `socket.destroy()`.  No
state flag is consulted or set besides the socket itself, and pending
handlers are not rejected. -/
def closeClient (st : ClientState) : ClientState :=
  { st with lifecycle := .destroyed }

/-- The synchronous phase of `Client.ping` (`client.ts` lines 90-98):
write the one-byte frame, register a data handler.  No state check, no
validation. -/
def pingStart (cmds : Commands) (st : ClientState) :
    Except String Unit × ClientState :=
  (.ok (), awaitOnceData (socketWrite st (pingFrame cmds)))

/-- The synchronous phase of `Client.get` (`client.ts` lines 100-113):
if validation or frame building throws, the exception propagates and the
socket is untouched; otherwise the frame is written and a data handler
registered.  The connection lifecycle is never consulted. -/
def getStart (cmds : Commands) (opts : ConnectionOptions) (key : String)
    (st : ClientState) : Except String Unit × ClientState :=
  match getFrame cmds opts key with
  | .error e => (.error e, st)
  | .ok frame => (.ok (), awaitOnceData (socketWrite st frame))

/-- The synchronous phase of `Client.set` (`client.ts` lines 118-141). -/
def setStart (cmds : Commands) (opts : ConnectionOptions) (key : String)
    (value : SerializableValue) (st : ClientState) :
    Except String Unit × ClientState :=
  match setFrame cmds opts key value with
  | .error e => (.error e, st)
  | .ok frame => (.ok (), awaitOnceData (socketWrite st frame))

/-- The synchronous phase of `Client.exists` (`client.ts` lines
146-159). -/
def existsStart (cmds : Commands) (opts : ConnectionOptions) (key : String)
    (st : ClientState) : Except String Unit × ClientState :=
  match existsFrame cmds opts key with
  | .error e => (.error e, st)
  | .ok frame => (.ok (), awaitOnceData (socketWrite st frame))

/-- The synchronous phase of `Client.delete` (`client.ts` lines
164-177). -/
def deleteStart (cmds : Commands) (opts : ConnectionOptions) (key : String)
    (st : ClientState) : Except String Unit × ClientState :=
  match deleteFrame cmds opts key with
  | .error e => (.error e, st)
  | .ok frame => (.ok (), awaitOnceData (socketWrite st frame))

/-- The frames a frame-construction result contributes to the wire:
none on a thrown exception, the one frame otherwise. -/
def framesOf (e : Except String (List Nat)) : List (List Nat) :=
  match e with
  | .error _ => []
  | .ok frame => [frame]

/-- The key region of a `get`/`exists`/`delete` frame: the serialized
key left-aligned in `maxKeySizeBytes` bytes, zero-filled on the right. -/
def keyRegion (opts : ConnectionOptions) (key : String) : List Nat :=
  serializeKeyBytes key ++ List.replicate (opts.maxKeySizeBytes - key.length) 0

/-- The constructor-default configuration (`client.ts` lines 19-24):
localhost:9055, 32-byte keys, 1024-byte values. -/
def defaultOptions : ConnectionOptions :=
  ⟨"localhost", 9055, 32, 1024⟩

/-- A concrete command-code assignment used for closed evaluations; the
evaluated behaviour does not depend on the five code values. -/
def cmds0 : Commands :=
  ⟨0, 1, 2, 3, 4⟩

/-- A connected client that has written nothing and has no outstanding
response. -/
def idleState : ClientState :=
  ⟨.connected, [], 0⟩

/-- The string-length test applied by `validateValue` after `typeof`
dispatch: booleans are never too long; numbers and strings are measured
by JS string length (character count). -/
def valueTooLong (opts : ConnectionOptions) (value : SerializableValue) : Bool :=
  match value with
  | .bool _ => false
  | .num n => decide ((jsNumberToString n).length > opts.maxValueSizeBytes)
  | .str s => decide (s.length > opts.maxValueSizeBytes)

/-!  ## Helper lemmas  -/

theorem validateKey_ok (opts : ConnectionOptions) (key : String)
    (h : key.length ≤ opts.maxKeySizeBytes) : validateKey opts key = .ok () := by
  simp only [validateKey, ite_eq_right_iff]
  omega

theorem validateKey_err (opts : ConnectionOptions) (key : String)
    (h : key.length > opts.maxKeySizeBytes) :
    validateKey opts key = .error "key too long" := by
  simp only [validateKey, if_pos h]

theorem length_serializeKeyBytes (key : String) :
    (serializeKeyBytes key).length = key.length := by
  unfold serializeKeyBytes
  rw [List.length_map]
  rfl

theorem serializeKey_ok (opts : ConnectionOptions) (key : String)
    (h : key.length ≤ opts.maxKeySizeBytes) :
    serializeKey opts key = .ok (serializeKeyBytes key) := by
  unfold serializeKey
  rw [validateKey_ok opts key h]
  rfl

/-- The shared `allocate, store command byte, place key at offset 1`
sequence of `get`/`exists`/`delete` (and of `set` up to the value
placement), evaluated for a valid key. -/
theorem keyOnly_build (code : Nat) (opts : ConnectionOptions) (key : String)
    (h : key.length ≤ opts.maxKeySizeBytes) :
    uint8ArraySetAt (uint8ArrayStore (uint8ArrayNew (1 + opts.maxKeySizeBytes)) 0 code)
      (serializeKeyBytes key) 1 = .ok (code % 256 :: keyRegion opts key) := by
  have hlen := length_serializeKeyBytes key
  unfold uint8ArraySetAt uint8ArrayStore uint8ArrayNew
  rw [Nat.add_comm 1 opts.maxKeySizeBytes, List.replicate_succ]
  simp only [List.set]
  rw [if_neg (by simp only [List.length_cons, List.length_replicate]; omega)]
  have hdrop :
      List.drop (1 + (serializeKeyBytes key).length)
        (code % 256 :: List.replicate opts.maxKeySizeBytes (0 : Nat)) =
      List.replicate (opts.maxKeySizeBytes - key.length) 0 := by
    rw [Nat.add_comm, List.drop_succ_cons, List.drop_replicate, hlen]
  rw [hdrop]
  unfold keyRegion
  rfl

theorem getFrame_ok (cmds : Commands) (opts : ConnectionOptions) (key : String)
    (h : key.length ≤ opts.maxKeySizeBytes) :
    getFrame cmds opts key = .ok (cmds.GET % 256 :: keyRegion opts key) := by
  unfold getFrame
  rw [validateKey_ok opts key h, serializeKey_ok opts key h]
  exact keyOnly_build cmds.GET opts key h

theorem existsFrame_ok (cmds : Commands) (opts : ConnectionOptions) (key : String)
    (h : key.length ≤ opts.maxKeySizeBytes) :
    existsFrame cmds opts key = .ok (cmds.EXISTS % 256 :: keyRegion opts key) := by
  unfold existsFrame
  rw [validateKey_ok opts key h, serializeKey_ok opts key h]
  exact keyOnly_build cmds.EXISTS opts key h

theorem deleteFrame_ok (cmds : Commands) (opts : ConnectionOptions) (key : String)
    (h : key.length ≤ opts.maxKeySizeBytes) :
    deleteFrame cmds opts key = .ok (cmds.DELETE % 256 :: keyRegion opts key) := by
  unfold deleteFrame
  rw [validateKey_ok opts key h, serializeKey_ok opts key h]
  exact keyOnly_build cmds.DELETE opts key h

theorem getFrame_err_key (cmds : Commands) (opts : ConnectionOptions) (key : String)
    (h : key.length > opts.maxKeySizeBytes) :
    getFrame cmds opts key = .error "key too long" := by
  unfold getFrame
  rw [validateKey_err opts key h]
  rfl

theorem existsFrame_err_key (cmds : Commands) (opts : ConnectionOptions) (key : String)
    (h : key.length > opts.maxKeySizeBytes) :
    existsFrame cmds opts key = .error "key too long" := by
  unfold existsFrame
  rw [validateKey_err opts key h]
  rfl

theorem deleteFrame_err_key (cmds : Commands) (opts : ConnectionOptions) (key : String)
    (h : key.length > opts.maxKeySizeBytes) :
    deleteFrame cmds opts key = .error "key too long" := by
  unfold deleteFrame
  rw [validateKey_err opts key h]
  rfl

theorem setFrame_err_key (cmds : Commands) (opts : ConnectionOptions) (key : String)
    (value : SerializableValue) (h : key.length > opts.maxKeySizeBytes) :
    setFrame cmds opts key value = .error "key too long" := by
  unfold setFrame
  rw [validateKey_err opts key h]
  rfl

theorem validateValue_err (opts : ConnectionOptions) (value : SerializableValue)
    (h : valueTooLong opts value = true) :
    validateValue opts value = .error "value too long" := by
  cases value with
  | bool b => simp [valueTooLong] at h
  | num n =>
      simp only [valueTooLong, decide_eq_true_eq] at h
      simp only [validateValue, if_pos h]
  | str s =>
      simp only [valueTooLong, decide_eq_true_eq] at h
      simp only [validateValue, if_pos h]

theorem setFrame_err_value (cmds : Commands) (opts : ConnectionOptions) (key : String)
    (value : SerializableValue) (hk : key.length ≤ opts.maxKeySizeBytes)
    (hv : valueTooLong opts value = true) :
    setFrame cmds opts key value = .error "value too long" := by
  unfold setFrame
  rw [validateKey_ok opts key hk, validateValue_err opts value hv]
  rfl

/-!  ## Theorems  -/

/-- C1.  The claim: for every configured max key size `K`, the SET frame
has length `1 + K + len(value)`, the key region `[1, 1+K)` is the key
plus zero fill, and the encoded value starts at offset `1 + K`, computed
from the configured `K`.  The code instead places the value at the
HARDCODED offset 33 (`data.set(value, 33)`, `client.ts` line 135):
with `K = 40` the one-byte value 118 lands at index 33 — inside the key
region, with index `1 + 40 = 41` still zero — and with `K = 4` the
`set` call throws a `RangeError` because offset 33 is outside the
`1 + 4 + 1`-byte buffer.  Only at the default `K = 32` does offset 33
coincide with `1 + K`. -/
theorem set_value_offset_hardcoded :
    setFrame cmds0 ⟨"localhost", 9055, 40, 1024⟩ "k" (SerializableValue.str "v") =
      .ok (2 :: 107 :: (List.replicate 31 0 ++ 118 :: List.replicate 8 0)) ∧
    setFrame cmds0 ⟨"localhost", 9055, 4, 1024⟩ "k" (SerializableValue.str "v") =
      .error "RangeError" ∧
    setFrame cmds0 defaultOptions "user1" (SerializableValue.str "abc") =
      .ok (2 :: ([117, 115, 101, 114, 49] ++ List.replicate 27 0 ++ [97, 98, 99])) :=
  ⟨rfl, rfl, rfl⟩

/-- C3.  The claim: with `{host: localhost, port: 9055, maxKeySizeBytes:
8, maxValueSizeBytes: 16}`, `set('user1', 'abc')` sends a 25-byte frame
`[SET, u, s, e, r, 1, 0, 0, 0, a, b, c]` and resolves `true` on reply
`[1]`.  In the code, the buffer is `1 + 8 + 3 = 12` bytes (also the
length of the claim's own byte listing — not 25), and
`data.set(value, 33)` throws a `RangeError` since offset 33 is outside
it: nothing is written to the socket and `set` never resolves.  The
remaining conjuncts check that the key and value do serialize to the
claim's listed bytes, so only the hardcoded offset stops that frame. -/
theorem scenario_k8_set_throws :
    setStart cmds0 ⟨"localhost", 9055, 8, 16⟩ "user1" (SerializableValue.str "abc")
        idleState = (.error "RangeError", idleState) ∧
    serializeKeyBytes "user1" = [117, 115, 101, 114, 49] ∧
    textEncoderEncode "abc" = [97, 98, 99] :=
  ⟨rfl, rfl, rfl⟩

/-- C2.  The claim: a second command is never issued while the first
command's response is outstanding — an explicit busy guard or FIFO queue
either queues it or fails it deterministically.  The code has no such
mechanism: after `exists('a')` has written its frame and is awaiting the
response (`pending = 1`), starting `delete('b')` succeeds immediately
and pushes a second frame onto the socket (`writes.length = 2`) while
the first response is still outstanding (`pending` becomes 2). -/
theorem no_outstanding_request_guard :
    (existsStart cmds0 defaultOptions "a" idleState).2.pending = 1 ∧
    (existsStart cmds0 defaultOptions "a" idleState).2.writes.length = 1 ∧
    (deleteStart cmds0 defaultOptions "b"
        (existsStart cmds0 defaultOptions "a" idleState).2).1 = .ok () ∧
    (deleteStart cmds0 defaultOptions "b"
        (existsStart cmds0 defaultOptions "a" idleState).2).2.writes.length = 2 ∧
    (deleteStart cmds0 defaultOptions "b"
        (existsStart cmds0 defaultOptions "a" idleState).2).2.pending = 2 :=
  ⟨rfl, rfl, rfl, rfl, rfl⟩

/-- C4.  The claim: every operation requires the `Connected` state and
fails with `NotConnected` otherwise, and after close fails with
`SessionClosed`.  The code never consults the connection state: each
operation behaves on a closed (or never-connected) client exactly as on
a live one — `closeClient` commutes with every operation — and on the
concrete closed client `exists('k')` returns success and writes its
frame to the destroyed socket instead of failing with `SessionClosed`
(it would then await a data event that never arrives). -/
theorem operations_never_check_connection_state :
    (∀ (cmds : Commands) (opts : ConnectionOptions) (key : String)
       (value : SerializableValue) (st : ClientState),
      (closeClient st).lifecycle = SocketLifecycle.destroyed ∧
      (closeClient st).writes = st.writes ∧
      (closeClient st).pending = st.pending ∧
      pingStart cmds (closeClient st) =
        ((pingStart cmds st).1, closeClient (pingStart cmds st).2) ∧
      getStart cmds opts key (closeClient st) =
        ((getStart cmds opts key st).1, closeClient (getStart cmds opts key st).2) ∧
      setStart cmds opts key value (closeClient st) =
        ((setStart cmds opts key value st).1,
          closeClient (setStart cmds opts key value st).2) ∧
      existsStart cmds opts key (closeClient st) =
        ((existsStart cmds opts key st).1, closeClient (existsStart cmds opts key st).2) ∧
      deleteStart cmds opts key (closeClient st) =
        ((deleteStart cmds opts key st).1, closeClient (deleteStart cmds opts key st).2)) ∧
    (existsStart cmds0 defaultOptions "k" (closeClient idleState)).1 = .ok () ∧
    (existsStart cmds0 defaultOptions "k" (closeClient idleState)).2.writes.length = 1 ∧
    (existsStart cmds0 defaultOptions "k" ⟨.fresh, [], 0⟩).1 = .ok () ∧
    (existsStart cmds0 defaultOptions "k" ⟨.fresh, [], 0⟩).2.writes.length = 1 := by
  refine ⟨fun cmds opts key value st => ?_, rfl, rfl, rfl, rfl⟩
  refine ⟨rfl, rfl, rfl, rfl, ?_, ?_, ?_, ?_⟩
  · cases h : getFrame cmds opts key <;>
      simp [getStart, h, closeClient, socketWrite, awaitOnceData]
  · cases h : setFrame cmds opts key value <;>
      simp [setStart, h, closeClient, socketWrite, awaitOnceData]
  · cases h : existsFrame cmds opts key <;>
      simp [existsStart, h, closeClient, socketWrite, awaitOnceData]
  · cases h : deleteFrame cmds opts key <;>
      simp [deleteStart, h, closeClient, socketWrite, awaitOnceData]

/-- C6, counterexample.  The claim: value validation fails with
`ValueTooLarge` exactly when the value's size exceeds the configured
maximum, a string's size being its UTF-8 byte length.  With
`maxValueSizeBytes = 1` and the one-character string `é`,
the UTF-8 encoding is 2 bytes (2 > 1), yet `validateValue` accepts it
(the code measures `value.length`, the character count 1), and the SET
path then happily builds a frame carrying the 2-byte value. -/
theorem value_size_not_utf8_counterexample :
    (textEncoderEncode "é").length = 2 ∧
    validateValue ⟨"localhost", 9055, 32, 1⟩ (SerializableValue.str "é") = .ok () ∧
    setFrame cmds0 ⟨"localhost", 9055, 32, 1⟩ "k" (SerializableValue.str "é") =
      .ok (2 :: 107 :: (List.replicate 31 0 ++ [195, 169])) :=
  ⟨rfl, rfl, rfl⟩

/-- C6, amended.  Value validation fails with `ValueTooLarge` exactly
when the value's size exceeds the configured maximum value size, where a
string's size is its JS string length (character count — not its UTF-8
byte length) and a number's size is the length of its pre-encoding
string form; booleans are exempt from the size check and always valid,
encoding to exactly 1 byte, and no outcome other than success or
`ValueTooLarge` exists. -/
theorem validateValue_uses_char_count (opts : ConnectionOptions)
    (value : SerializableValue) :
    (validateValue opts value = .error "value too long" ↔
      (match value with
       | .bool _ => False
       | .num n => (jsNumberToString n).length > opts.maxValueSizeBytes
       | .str s => s.length > opts.maxValueSizeBytes)) ∧
    (validateValue opts value = .ok () ∨
      validateValue opts value = .error "value too long") ∧
    (∀ b : Bool, encodeValue (SerializableValue.bool b) = [if b then 1 else 0] ∧
      (encodeValue (SerializableValue.bool b)).length = 1) := by
  refine ⟨?_, ?_, fun b => ⟨rfl, by cases b <;> rfl⟩⟩
  · cases value with
    | bool b => simp [validateValue]
    | num n =>
        simp only [validateValue]
        split_ifs with h <;> simp [h]
    | str s =>
        simp only [validateValue]
        split_ifs with h <;> simp [h]
  · cases value with
    | bool b => exact .inl rfl
    | num n =>
        simp only [validateValue]
        split_ifs <;> [exact .inr rfl; exact .inl rfl]
    | str s =>
        simp only [validateValue]
        split_ifs <;> [exact .inr rfl; exact .inl rfl]

/-- C7.  For every key whose encoded byte length exceeds the configured
max key size, key validation throws `KeyTooLarge`, so every keyed
operation (`get`, `set`, `exists`, `delete`) fails with that error and
the client state — in particular the list of socket writes — is
untouched. -/
theorem key_too_large_rejected (cmds : Commands) (opts : ConnectionOptions)
    (key : String) (value : SerializableValue) (st : ClientState)
    (h : (serializeKeyBytes key).length > opts.maxKeySizeBytes) :
    validateKey opts key = .error "key too long" ∧
    getStart cmds opts key st = (.error "key too long", st) ∧
    setStart cmds opts key value st = (.error "key too long", st) ∧
    existsStart cmds opts key st = (.error "key too long", st) ∧
    deleteStart cmds opts key st = (.error "key too long", st) := by
  rw [length_serializeKeyBytes] at h
  refine ⟨validateKey_err opts key h, ?_, ?_, ?_, ?_⟩
  · simp [getStart, getFrame_err_key cmds opts key h]
  · simp [setStart, setFrame_err_key cmds opts key value h]
  · simp [existsStart, existsFrame_err_key cmds opts key h]
  · simp [deleteStart, deleteFrame_err_key cmds opts key h]

/-- Witness for C7 at a concrete input: `maxKeySizeBytes = 2` and the
three-character key `abc`. -/
theorem key_too_large_rejected_witness :
    (serializeKeyBytes "abc").length > (2 : Nat) ∧
    (validateKey ⟨"localhost", 9055, 2, 1024⟩ "abc" = .error "key too long" ∧
     getStart cmds0 ⟨"localhost", 9055, 2, 1024⟩ "abc" idleState =
       (.error "key too long", idleState) ∧
     setStart cmds0 ⟨"localhost", 9055, 2, 1024⟩ "abc" (SerializableValue.bool true)
       idleState = (.error "key too long", idleState) ∧
     existsStart cmds0 ⟨"localhost", 9055, 2, 1024⟩ "abc" idleState =
       (.error "key too long", idleState) ∧
     deleteStart cmds0 ⟨"localhost", 9055, 2, 1024⟩ "abc" idleState =
       (.error "key too long", idleState)) :=
  ⟨by decide,
   key_too_large_rejected cmds0 ⟨"localhost", 9055, 2, 1024⟩ "abc"
     (SerializableValue.bool true) idleState (by decide)⟩

/-- C8.  The status decoding shared by `set`, `exists` and `delete`
returns `true` iff the first byte of the response equals 1; any other
first byte — including the missing first byte of an empty response —
yields `false`.  `decodeStatusResponse` is a total `Bool`-valued
function, so no input raises an error. -/
theorem decode_status_first_byte (res : List Nat) :
    (decodeStatusResponse res = true ↔ res.head? = some 1) ∧
    decodeStatusResponse [] = false := by
  refine ⟨?_, rfl⟩
  cases res <;> simp [decodeStatusResponse]

/-- C9.  For every key that passes validation, key serialization
succeeds and produces one byte per character — each character's code
point truncated to a single byte (`% 256`, not UTF-8) — so the output
length is exactly the key's character length. -/
theorem serializeKey_one_byte_per_char (opts : ConnectionOptions) (key : String)
    (h : key.length ≤ opts.maxKeySizeBytes) :
    serializeKey opts key = .ok (key.data.map (fun c => c.toNat % 256)) ∧
    (serializeKeyBytes key).length = key.length := by
  refine ⟨?_, length_serializeKeyBytes key⟩
  rw [serializeKey_ok opts key h]
  rfl

/-- Witness for C9 at the key `user1` under the default configuration. -/
theorem serializeKey_one_byte_per_char_witness :
    "user1".length ≤ defaultOptions.maxKeySizeBytes ∧
    (serializeKey defaultOptions "user1" =
       .ok ("user1".data.map (fun c => c.toNat % 256)) ∧
     (serializeKeyBytes "user1").length = "user1".length) :=
  ⟨by decide, serializeKey_one_byte_per_char defaultOptions "user1" (by decide)⟩

/-- C10.  For every valid key and configuration, the frames of `get`,
`exists` and `delete` share one tail — the serialized key left-aligned
at offset 1, zero-filled to the configured max key size — and differ
only in byte 0, the command code; each frame has length
`1 + maxKeySizeBytes`. -/
theorem key_frames_differ_only_in_command (cmds : Commands)
    (opts : ConnectionOptions) (key : String)
    (h : key.length ≤ opts.maxKeySizeBytes) :
    getFrame cmds opts key = .ok (cmds.GET % 256 :: keyRegion opts key) ∧
    existsFrame cmds opts key = .ok (cmds.EXISTS % 256 :: keyRegion opts key) ∧
    deleteFrame cmds opts key = .ok (cmds.DELETE % 256 :: keyRegion opts key) ∧
    (cmds.GET % 256 :: keyRegion opts key).length = 1 + opts.maxKeySizeBytes ∧
    (keyRegion opts key).take key.length = serializeKeyBytes key ∧
    (keyRegion opts key).drop key.length =
      List.replicate (opts.maxKeySizeBytes - key.length) 0 := by
  have hlen := length_serializeKeyBytes key
  refine ⟨getFrame_ok cmds opts key h, existsFrame_ok cmds opts key h,
    deleteFrame_ok cmds opts key h, ?_, ?_, ?_⟩
  · simp only [List.length_cons, keyRegion, List.length_append,
      List.length_replicate, hlen]
    omega
  · unfold keyRegion
    rw [← hlen, List.take_left]
  · unfold keyRegion
    rw [← hlen, List.drop_left]

/-- Witness for C10 at the key `user1` under the default configuration. -/
theorem key_frames_differ_only_in_command_witness :
    "user1".length ≤ defaultOptions.maxKeySizeBytes ∧
    (getFrame cmds0 defaultOptions "user1" =
       .ok (cmds0.GET % 256 :: keyRegion defaultOptions "user1") ∧
     existsFrame cmds0 defaultOptions "user1" =
       .ok (cmds0.EXISTS % 256 :: keyRegion defaultOptions "user1") ∧
     deleteFrame cmds0 defaultOptions "user1" =
       .ok (cmds0.DELETE % 256 :: keyRegion defaultOptions "user1") ∧
     (cmds0.GET % 256 :: keyRegion defaultOptions "user1").length =
       1 + defaultOptions.maxKeySizeBytes ∧
     (keyRegion defaultOptions "user1").take "user1".length =
       serializeKeyBytes "user1" ∧
     (keyRegion defaultOptions "user1").drop "user1".length =
       List.replicate (defaultOptions.maxKeySizeBytes - "user1".length) 0) :=
  ⟨by decide,
   key_frames_differ_only_in_command cmds0 defaultOptions "user1" (by decide)⟩

/-- C5.  In every operation, the socket write happens exactly when frame
construction succeeded and carries exactly the constructed frame
(`writes` grows by `framesOf` of the construction result, which is empty
on any thrown validation or construction error — so a failed validation
leaves the socket untouched, with no partial write); moreover when the
key is too long the operation fails with the key error even if the value
is also too long (key-size validation precedes value-size validation),
and when only the value is too long `set` fails with the value error
before any construction step. -/
theorem validation_precedes_write (cmds : Commands) (opts : ConnectionOptions)
    (key : String) (value : SerializableValue) (st : ClientState) :
    ((setStart cmds opts key value st).2.writes =
       st.writes ++ framesOf (setFrame cmds opts key value)) ∧
    ((getStart cmds opts key st).2.writes =
       st.writes ++ framesOf (getFrame cmds opts key)) ∧
    ((existsStart cmds opts key st).2.writes =
       st.writes ++ framesOf (existsFrame cmds opts key)) ∧
    ((deleteStart cmds opts key st).2.writes =
       st.writes ++ framesOf (deleteFrame cmds opts key)) ∧
    (if key.length > opts.maxKeySizeBytes then
       setFrame cmds opts key value = .error "key too long" ∧
       setStart cmds opts key value st = (.error "key too long", st) ∧
       getStart cmds opts key st = (.error "key too long", st) ∧
       existsStart cmds opts key st = (.error "key too long", st) ∧
       deleteStart cmds opts key st = (.error "key too long", st)
     else if valueTooLong opts value then
       setFrame cmds opts key value = .error "value too long" ∧
       setStart cmds opts key value st = (.error "value too long", st)
     else True) := by
  refine ⟨?_, ?_, ?_, ?_, ?_⟩
  · cases h : setFrame cmds opts key value <;>
      simp [setStart, h, framesOf, socketWrite, awaitOnceData]
  · cases h : getFrame cmds opts key <;>
      simp [getStart, h, framesOf, socketWrite, awaitOnceData]
  · cases h : existsFrame cmds opts key <;>
      simp [existsStart, h, framesOf, socketWrite, awaitOnceData]
  · cases h : deleteFrame cmds opts key <;>
      simp [deleteStart, h, framesOf, socketWrite, awaitOnceData]
  · split_ifs with hk hv
    · refine ⟨setFrame_err_key cmds opts key value hk, ?_, ?_, ?_, ?_⟩
      · simp [setStart, setFrame_err_key cmds opts key value hk]
      · simp [getStart, getFrame_err_key cmds opts key hk]
      · simp [existsStart, existsFrame_err_key cmds opts key hk]
      · simp [deleteStart, deleteFrame_err_key cmds opts key hk]
    · have hsf := setFrame_err_value cmds opts key value (by omega) hv
      exact ⟨hsf, by simp [setStart, hsf]⟩

end Paggo
